import Mathlib

/-!
Verification development for the MoodTunes repository.

The audio synthesis pipeline (client `generateAudioFromMood` and its helper
functions) is embedded shallowly over the real numbers: JavaScript `number`
arithmetic is modelled by `ℝ` (exact reals), `Math.sin`/`Math.tanh`/`Math.exp`/
`Math.pow` by the corresponding Mathlib functions, `Math.floor` by `Int.floor`,
the JavaScript remainder operator by truncated remainder (`Int.tmod` on
integers, `jsMod` on reals), and `Math.random()` draws by explicit real-valued
parameters threaded through the definitions.  The server-side mood analysis is
embedded with exact rational arithmetic (`ℚ`), which keeps it computable.
-/

namespace MoodTunes

/-- The chromatic note names, in the order of the source's `noteMap` array
(written as two halves joined by append, which changes nothing about the
list). -/
def noteMap : List String :=
  ["C", "C#", "D", "D#", "E", "F"] ++ ["F#", "G", "G#", "A", "A#", "B"]

/-- JavaScript `Array.prototype.indexOf`: the 0-based index of the first
occurrence, or `-1` when the element is absent. -/
def jsIndexOf : List String → String → ℤ
  | [], _ => -1
  | x :: xs, s =>
    if x = s then 0
    else
      let r := jsIndexOf xs s
      if r = -1 then -1 else r + 1

/-- JavaScript `String.prototype.charAt(0)`: the first character as a
one-character string (empty when the string is empty). -/
def charAt0 (s : String) : String := ⟨s.data.take 1⟩

/-- The scale mode, the TypeScript union `'major' | 'minor'`. -/
inductive Mode where
  | major
  | minor
deriving DecidableEq, Fintype

/-- The `scales` table: semitone interval patterns for the two modes. -/
def scalesTable : Mode → List ℕ
  | .major => [0, 2, 4, 5, 7, 9, 11]
  | .minor => [0, 2, 3, 5, 7, 8, 10]

/-- The `MusicParams` input record of the synthesis pipeline. -/
structure MusicParams where
  tempo : ℕ
  key : String
  scale : Mode
  rhythm : String

/-- The source's `getFrequency`: equal-tempered frequency
`440 * 2^((noteIndex - 9 + (octave - 4) * 12) / 12)` where `noteIndex` is
`noteMap.indexOf(note)` (so `-1` for an unknown note name — the source does
not validate the name). -/
noncomputable def getFrequency (note : String) (octave : ℤ) : ℝ :=
  440 * (2 : ℝ) ^ ((((jsIndexOf noteMap note : ℤ) : ℝ) - 9 + (((octave : ℤ) : ℝ) - 4) * 12) / 12)

/-- The source's `getChordProgression`: `[0,2,5,0]` for minor, `[0,3,4,0]`
otherwise. -/
def getChordProgression (scale : Mode) : List ℕ :=
  if scale = Mode.minor then [0, 2, 5, 0] else [0, 3, 4, 0]

/-- The `scaleNotes` computation of `generateAudioFromMood`: the key's leading
character is looked up in `noteMap`, and each interval of the mode's pattern is
added modulo 12 (JavaScript `%`, i.e. truncated remainder). -/
def scaleNotesOf (key : String) (scale : Mode) : List String :=
  (scalesTable scale).map fun interval =>
    let noteIndex := Int.tmod (jsIndexOf noteMap (charAt0 key) + (interval : ℤ)) 12
    if h : 0 ≤ noteIndex ∧ noteIndex.toNat < noteMap.length then
      noteMap.get ⟨noteIndex.toNat, h.2⟩
    else ""

/-- A mood vibe profile, the record type of the `vibes` table entries. -/
structure MoodVibe where
  bassType : String
  melodyStyle : String
  harmony : String
  effects : List String
  rhythmComplexity : ℕ
deriving DecidableEq

/-- The ten rhythm-style identifiers keying the `vibes` table, in source
order. -/
def rhythmIds : List String :=
  ["upbeat", "slow", "driving", "flowing", "irregular",
   "gentle", "energetic", "contemplative", "steady", "romantic"]

/-- The source's `getMoodVibe`: lookup of the rhythm identifier in the `vibes`
object, falling back to the `flowing` entry (`vibes[rhythm] || vibes['flowing']`). -/
def getMoodVibe (rhythm : String) : MoodVibe :=
  if rhythm = "upbeat" then ⟨"bouncy", "dancing", "bright", ["sparkle", "bounce"], 4⟩
  else if rhythm = "slow" then ⟨"melancholic", "sorrowful", "emotional", ["reverb", "tears"], 1⟩
  else if rhythm = "driving" then ⟨"pounding", "soaring", "powerful", ["distortion", "pulse"], 8⟩
  else if rhythm = "flowing" then ⟨"gentle", "floating", "peaceful", ["wave", "breath"], 2⟩
  else if rhythm = "irregular" then ⟨"restless", "uncertain", "unsettled", ["flutter", "hesitate"], 5⟩
  else if rhythm = "gentle" then ⟨"soft", "lullaby", "warm", ["whisper", "glow"], 1⟩
  else if rhythm = "energetic" then ⟨"jumping", "celebrating", "vibrant", ["burst", "fizz"], 6⟩
  else if rhythm = "contemplative" then ⟨"hollow", "longing", "nostalgic", ["drift", "memory"], 1⟩
  else if rhythm = "steady" then ⟨"solid", "precise", "clear", ["focus", "sharp"], 2⟩
  else if rhythm = "romantic" then ⟨"warm", "tender", "intimate", ["caress", "velvet"], 3⟩
  else ⟨"gentle", "floating", "peaceful", ["wave", "breath"], 2⟩

/-- The oscillator shape, the TypeScript union `'sine' | 'triangle' | 'sawtooth'`. -/
inductive WaveType where
  | sine
  | triangle
  | sawtooth
deriving DecidableEq

/-- The source's `generateWaveform` oscillator primitive. -/
noncomputable def generateWaveform (frequency time : ℝ) (type : WaveType) : ℝ :=
  let phase := 2 * Real.pi * frequency * time
  match type with
  | .sine => Real.sin phase
  | .triangle => (2 / Real.pi) * Real.arcsin (Real.sin phase)
  | .sawtooth => 2 * (phase / (2 * Real.pi) - (⌊phase / (2 * Real.pi) + 0.5⌋ : ℤ))

/-- The source's `generateNoise`; the `Math.random()` draw is the explicit
parameter `r` (a value in `[0,1)`). -/
noncomputable def generateNoise (time r : ℝ) : ℝ :=
  (r * 2 - 1) * Real.exp (-time * 10)

/-- The bass styles of `generateBass`'s switch; `other` is the `default`
branch. -/
inductive BassType where
  | bouncy
  | melancholic
  | pounding
  | gentle
  | restless
  | soft
  | jumping
  | hollow
  | solid
  | warm
  | other
deriving DecidableEq, Fintype

/-- Parse of the `bassType` string selector into the switch branch taken by
`generateBass`. -/
def bassTypeOf (s : String) : BassType :=
  if s = "bouncy" then .bouncy
  else if s = "melancholic" then .melancholic
  else if s = "pounding" then .pounding
  else if s = "gentle" then .gentle
  else if s = "restless" then .restless
  else if s = "soft" then .soft
  else if s = "jumping" then .jumping
  else if s = "hollow" then .hollow
  else if s = "solid" then .solid
  else if s = "warm" then .warm
  else .other

/-- The frequency argument handed to `generateWaveform` by each branch of
`generateBass` (`bassFreq = rootFreq * 0.5`; `melancholic` multiplies it by
`1 + 0.1 * sin(time * 0.3)`, `restless` by `1 + 0.4 * sin(time * 1.5)`, and
`hollow` by `0.7`). -/
noncomputable def bassOscFreq (bassType : BassType) (rootFreq time : ℝ) : ℝ :=
  let bassFreq := rootFreq * 0.5
  match bassType with
  | .melancholic => bassFreq * (1 + 0.1 * Real.sin (time * 0.3))
  | .restless => bassFreq * (1 + 0.4 * Real.sin (time * 1.5))
  | .hollow => bassFreq * 0.7
  | _ => bassFreq

/-- The source's `generateBass`; the `Math.random()` draw inside the
`pounding` branch's `generateNoise` call is the explicit parameter `r`. -/
noncomputable def generateBass (bassType : BassType) (rootFreq time beat : ℝ)
    (complexity : ℕ) (r : ℝ) : ℝ :=
  match bassType with
  | .bouncy =>
      0.4 * (if Real.sin (beat * Real.pi * 2) > 0 then (1 : ℝ) else 0.3) *
        generateWaveform (bassOscFreq .bouncy rootFreq time) time .triangle
  | .melancholic =>
      0.45 * (0.4 + 0.3 * Real.sin (time * 0.2)) *
        generateWaveform (bassOscFreq .melancholic rootFreq time) time .sine
  | .pounding =>
      0.6 * (if Int.tmod ⌊beat * (complexity : ℝ)⌋ (complexity : ℤ) < 2 then (1 : ℝ) else 0.1) *
        (generateWaveform (bassOscFreq .pounding rootFreq time) time .sawtooth +
          0.3 * generateNoise time r)
  | .gentle =>
      0.25 * (1 + 0.3 * Real.sin (time * 0.5)) *
        generateWaveform (bassOscFreq .gentle rootFreq time) time .sine
  | .restless =>
      (0.35 + 0.15 * |Real.sin (time * 2.3)|) *
        generateWaveform (bassOscFreq .restless rootFreq time) time .triangle
  | .soft =>
      0.2 * Real.sin (time * 0.3 + Real.pi / 4) *
        generateWaveform (bassOscFreq .soft rootFreq time) time .sine
  | .jumping =>
      0.45 * (if Real.sin (beat * Real.pi * 4) > 0.5 then (1 : ℝ) else 0.2) *
        generateWaveform (bassOscFreq .jumping rootFreq time) time .triangle
  | .hollow =>
      0.3 * (1 - Real.exp (-time * 0.1)) *
        generateWaveform (bassOscFreq .hollow rootFreq time) time .triangle
  | .solid =>
      0.35 * generateWaveform (bassOscFreq .solid rootFreq time) time .sawtooth
  | .warm =>
      0.3 * (1 + 0.2 * Real.sin (time * 0.8)) *
        generateWaveform (bassOscFreq .warm rootFreq time) time .sine
  | .other =>
      0.3 * generateWaveform (bassOscFreq .other rootFreq time) time .sawtooth

/-- The harmony styles of `generateHarmony`'s switch; `other` is the `default`
branch. -/
inductive HarmonyType where
  | bright
  | emotional
  | powerful
  | peaceful
  | unsettled
  | warm
  | vibrant
  | nostalgic
  | clear
  | intimate
  | other
deriving DecidableEq, Fintype

/-- Parse of the `harmony` string selector into the switch branch taken by
`generateHarmony`. -/
def harmonyTypeOf (s : String) : HarmonyType :=
  if s = "bright" then .bright
  else if s = "emotional" then .emotional
  else if s = "powerful" then .powerful
  else if s = "peaceful" then .peaceful
  else if s = "unsettled" then .unsettled
  else if s = "warm" then .warm
  else if s = "vibrant" then .vibrant
  else if s = "nostalgic" then .nostalgic
  else if s = "clear" then .clear
  else if s = "intimate" then .intimate
  else .other

/-- The source's `generateHarmony` (`harmonicRate = tempo / 120`). -/
noncomputable def generateHarmony (harmonyType : HarmonyType)
    (root third fifth time : ℝ) (tempo : ℕ) : ℝ :=
  let harmonicRate := (tempo : ℝ) / 120
  match harmonyType with
  | .bright =>
      (0.3 + 0.2 * Real.sin (time * harmonicRate)) *
        (0.25 * generateWaveform root time .triangle +
          0.2 * generateWaveform third time .triangle +
          0.15 * generateWaveform fifth time .triangle +
          0.1 * generateWaveform (root * 2) time .sine)
  | .emotional =>
      (0.25 + 0.15 * Real.sin (time * 0.4)) *
        (0.8 * generateWaveform (root * (1 + 0.05 * Real.sin (time * 0.6))) time .sine +
          0.6 * generateWaveform (third * 0.97) time .sine +
          0.4 * generateWaveform (fifth * 0.95) time .triangle)
  | .powerful =>
      (0.4 + 0.3 * |Real.sin (time * harmonicRate * 2)|) *
        (0.3 * generateWaveform root time .sawtooth +
          0.25 * generateWaveform fifth time .sawtooth)
  | .peaceful =>
      0.2 * Real.sin (time * 0.3) *
        (generateWaveform root time .sine + 0.6 * generateWaveform third time .sine)
  | .unsettled =>
      (0.28 + 0.12 * |Real.sin (time * 2.1)|) *
        (0.7 * generateWaveform (root * (1 + 0.2 * Real.sin (time * 1.8))) time .sine +
          0.5 * generateWaveform (third * 1.05) time .triangle +
          0.3 * generateWaveform (fifth * 0.98) time .sine)
  | .warm =>
      0.18 * (1 + 0.4 * Real.sin (time * 0.4)) *
        (generateWaveform root time .sine + 0.5 * generateWaveform third time .sine)
  | .vibrant =>
      (0.35 + 0.25 * Real.sin (time * harmonicRate * 1.5)) *
        (generateWaveform root time .triangle + 0.8 * generateWaveform fifth time .triangle)
  | .nostalgic =>
      0.2 * Real.exp (-time * 0.05) *
        (generateWaveform (root * 0.95) time .sine +
          0.6 * generateWaveform (third * 0.98) time .sine)
  | .clear =>
      0.25 * (generateWaveform root time .triangle + 0.7 * generateWaveform fifth time .triangle)
  | .intimate =>
      0.22 * (1 + 0.3 * Real.sin (time * 0.6)) *
        (generateWaveform root time .sine + 0.8 * generateWaveform third time .sine)
  | .other =>
      0.2 * (generateWaveform root time .triangle + 0.7 * generateWaveform third time .triangle)

/-- JavaScript's `%` on real operands (for the nonnegative dividends and
positive divisors arising in the pipeline it coincides with the mathematical
remainder `a - b * ⌊a / b⌋` used here). -/
noncomputable def jsMod (a b : ℝ) : ℝ := a - b * (⌊a / b⌋ : ℤ)

/-- `scaleNotes[Math.floor(x % scaleNotes.length)]`, the melody's
note-selection idiom (out-of-range access yields `""`, the stand-in for
JavaScript `undefined`, whose `noteMap.indexOf` is `-1` just as in the
source). -/
noncomputable def melodyNoteAt (scaleNotes : List String) (x : ℝ) : String :=
  scaleNotes.getD (⌊jsMod x (scaleNotes.length : ℝ)⌋).toNat ""

/-- The melody styles of `generateMelody`'s switch; `other` is the `default`
branch. -/
inductive MelodyType where
  | dancing
  | sorrowful
  | soaring
  | floating
  | uncertain
  | lullaby
  | celebrating
  | longing
  | precise
  | tender
  | other
deriving DecidableEq, Fintype

/-- Parse of the `melodyStyle` string selector into the switch branch taken by
`generateMelody`. -/
def melodyTypeOf (s : String) : MelodyType :=
  if s = "dancing" then .dancing
  else if s = "sorrowful" then .sorrowful
  else if s = "soaring" then .soaring
  else if s = "floating" then .floating
  else if s = "uncertain" then .uncertain
  else if s = "lullaby" then .lullaby
  else if s = "celebrating" then .celebrating
  else if s = "longing" then .longing
  else if s = "precise" then .precise
  else if s = "tender" then .tender
  else .other

/-- The source's `generateMelody` (`melodyRate = tempo / 120`; the `measure`
argument is accepted but unused, as in the source). -/
noncomputable def generateMelody (melodyStyle : MelodyType) (scaleNotes : List String)
    (time : ℝ) (tempo : ℕ) (measure : ℕ) : ℝ :=
  let melodyRate := (tempo : ℝ) / 120
  match melodyStyle with
  | .dancing =>
      0.25 * (1 + 0.5 * Real.sin (time * melodyRate * 3)) *
        generateWaveform (getFrequency (melodyNoteAt scaleNotes (time * melodyRate * 2)) 5)
          time .sine
  | .sorrowful =>
      0.28 * (0.8 + 0.4 * Real.sin (time * 0.3)) * (1 + 0.1 * Real.sin (time * 1.2)) *
        generateWaveform
          (getFrequency (melodyNoteAt scaleNotes (time * melodyRate * 0.6)) 4 *
            (1 + 0.08 * Real.sin (time * 2.5)))
          time .sine
  | .soaring =>
      0.3 * generateWaveform
        (getFrequency (melodyNoteAt scaleNotes (time * melodyRate * 3))
          (5 + Int.tmod ⌊time / 4⌋ 2))
        time .sawtooth
  | .floating =>
      0.2 * (1 + 0.4 * Real.sin (time * 0.3)) *
        generateWaveform (getFrequency (melodyNoteAt scaleNotes (time * melodyRate * 0.8)) 4)
          time .sine
  | .uncertain =>
      0.26 * (0.7 + 0.3 * Real.sin (time * 1.9)) * (1 + 0.1 * Real.sin (time * 3.1)) *
        generateWaveform
          (getFrequency
            (melodyNoteAt scaleNotes (time * melodyRate * (1.2 + 0.5 * Real.sin (time * 1.7)))) 4 *
            (1 + 0.05 * Real.sin (time * 4.2)))
          time .sine
  | .lullaby =>
      0.15 * Real.sin (time * 0.2) *
        generateWaveform (getFrequency (melodyNoteAt scaleNotes (time * melodyRate * 0.4)) 4)
          time .sine
  | .celebrating =>
      0.28 * (1 + 0.6 * Real.sin (time * melodyRate * 2)) *
        generateWaveform (getFrequency (melodyNoteAt scaleNotes (time * melodyRate * 2.5)) 5)
          time .triangle
  | .longing =>
      0.18 * (1 + Real.sin (time * 0.1)) *
        generateWaveform (getFrequency (melodyNoteAt scaleNotes (time * melodyRate * 0.3)) 4)
          time .sine
  | .precise =>
      0.22 * generateWaveform (getFrequency (melodyNoteAt scaleNotes (time * melodyRate)) 4)
        time .triangle
  | .tender =>
      0.2 * (1 + 0.3 * Real.sin (time * 0.5)) *
        generateWaveform (getFrequency (melodyNoteAt scaleNotes (time * melodyRate * 0.7)) 4)
          time .sine
  | .other =>
      0.2 * generateWaveform (getFrequency (melodyNoteAt scaleNotes (time * melodyRate)) 4)
        time .sine

/-- The twenty named effects of `applyMoodEffects`'s switch; `noop` is an
unrecognized name (the switch has no default branch, so it leaves the sample
unchanged). -/
inductive EffectKind where
  | sparkle
  | bounce
  | reverb
  | tears
  | distortion
  | pulse
  | wave
  | breath
  | flutter
  | hesitate
  | whisper
  | glow
  | burst
  | fizz
  | drift
  | memory
  | focus
  | sharp
  | caress
  | velvet
  | noop
deriving DecidableEq, Fintype

/-- Parse of an effect name into the switch branch taken by
`applyMoodEffects`. -/
def effectKindOf (s : String) : EffectKind :=
  if s = "sparkle" then .sparkle
  else if s = "bounce" then .bounce
  else if s = "reverb" then .reverb
  else if s = "tears" then .tears
  else if s = "distortion" then .distortion
  else if s = "pulse" then .pulse
  else if s = "wave" then .wave
  else if s = "breath" then .breath
  else if s = "flutter" then .flutter
  else if s = "hesitate" then .hesitate
  else if s = "whisper" then .whisper
  else if s = "glow" then .glow
  else if s = "burst" then .burst
  else if s = "fizz" then .fizz
  else if s = "drift" then .drift
  else if s = "memory" then .memory
  else if s = "focus" then .focus
  else if s = "sharp" then .sharp
  else if s = "caress" then .caress
  else if s = "velvet" then .velvet
  else .noop

/-- One iteration of `applyMoodEffects`'s loop body: `orig` is the `sample`
argument (referred to by the `reverb`, `tears`, `wave`, `drift` and `memory`
branches), `p` the running `processed` value, and `r` the `Math.random()`
draw consumed by `fizz`. -/
noncomputable def applyEffect (e : EffectKind) (orig p time rootFreq : ℝ)
    (tempo : ℕ) (r : ℝ) : ℝ :=
  match e with
  | .sparkle => p + 0.05 * Real.sin (time * 8) * generateWaveform (rootFreq * 4) time .sine
  | .bounce => p * (1 + 0.1 * |Real.sin (time * (tempo : ℝ) / 30)|)
  | .reverb =>
      p + 0.15 * orig * Real.sin (time * 0.3 - Real.pi / 3) +
        0.08 * orig * Real.sin (time * 0.7 - Real.pi / 2)
  | .tears =>
      p + 0.12 *
        (Real.sin (time * 0.8) * Real.exp (-((jsMod time 4 - 2) * (jsMod time 4 - 2)))) *
        generateWaveform (rootFreq * 1.5) time .sine
  | .distortion => Real.tanh (p * 1.5) * 0.8
  | .pulse => p * (1 + 0.3 * Real.sin (time * (tempo : ℝ) / 15))
  | .wave => p + 0.05 * Real.sin (time * 0.3) * orig
  | .breath => p * (1 + 0.1 * Real.sin (time * 0.8))
  | .flutter => p * (1 + 0.08 * Real.sin (time * 6.5))
  | .hesitate =>
      if Real.sin (time * 1.3) > 0.8 then p * 0.6
      else if Real.sin (time * 1.3) < -0.8 then p * 1.2
      else p
  | .whisper => p * (0.7 + 0.2 * Real.sin (time * 0.2))
  | .glow => p + 0.03 * Real.sin (time * 0.4) * generateWaveform (rootFreq * 2) time .sine
  | .burst => if jsMod time 2 < 0.1 then p * (1 + jsMod time 2 * 3) else p
  | .fizz => p + 0.04 * (r - 0.5) * Real.sin (time * 10)
  | .drift => p + 0.08 * orig * Real.sin (time * 0.1)
  | .memory => p + 0.06 * orig * Real.sin (time * 0.05 - Real.pi / 2)
  | .focus => if p > 0 then min p 0.8 else max p (-0.8)
  | .sharp => p * (1 + 0.05 * Real.sign p)
  | .caress => p * (1 + 0.2 * Real.sin (time * 0.7))
  | .velvet => Real.sign p * |p| ^ (0.8 : ℝ)
  | .noop => p

/-- The source's `applyMoodEffects`: the named transforms applied cumulatively
in list order, each branch reading the original `sample` and the running
`processed` value. -/
noncomputable def applyMoodEffects (sample : ℝ) (effects : List String)
    (time rootFreq : ℝ) (tempo : ℕ) (r : ℝ) : ℝ :=
  effects.foldl (fun p e => applyEffect (effectKindOf e) sample p time rootFreq tempo r) sample

/-- `time = i / sampleRate` for sample index `i`. -/
noncomputable def timeAt (sampleRate i : ℕ) : ℝ := (i : ℝ) / (sampleRate : ℝ)

/-- `beatLength = 60 / tempo` (seconds per beat). -/
noncomputable def beatLengthOf (tempo : ℕ) : ℝ := 60 / (tempo : ℝ)

/-- `measureLength = beatLength * 4` (4/4 time). -/
noncomputable def measureLengthOf (tempo : ℕ) : ℝ := beatLengthOf tempo * 4

/-- `currentMeasure = Math.floor(time / measureLength) % 4`. -/
noncomputable def currentMeasureAt (tempo : ℕ) (time : ℝ) : ℤ :=
  Int.tmod ⌊time / measureLengthOf tempo⌋ 4

/-- `beatInMeasure = (time % measureLength) / beatLength`. -/
noncomputable def beatInMeasureAt (tempo : ℕ) (time : ℝ) : ℝ :=
  jsMod time (measureLengthOf tempo) / beatLengthOf tempo

/-- `currentChord = chordProgression[currentMeasure]`. -/
noncomputable def chordDegreeAt (scale : Mode) (tempo : ℕ) (time : ℝ) : ℕ :=
  (getChordProgression scale).getD (currentMeasureAt tempo time).toNat 0

/-- `root = getFrequency(scaleNotes[currentChord], 3)`. -/
noncomputable def rootFreqAt (params : MusicParams) (time : ℝ) : ℝ :=
  getFrequency
    ((scaleNotesOf params.key params.scale).getD
      (chordDegreeAt params.scale params.tempo time) "") 3

/-- `third = getFrequency(scaleNotes[(currentChord + 2) % scaleNotes.length], 3)`. -/
noncomputable def thirdFreqAt (params : MusicParams) (time : ℝ) : ℝ :=
  getFrequency
    ((scaleNotesOf params.key params.scale).getD
      ((chordDegreeAt params.scale params.tempo time + 2) %
        (scaleNotesOf params.key params.scale).length) "") 3

/-- `fifth = getFrequency(scaleNotes[(currentChord + 4) % scaleNotes.length], 3)`. -/
noncomputable def fifthFreqAt (params : MusicParams) (time : ℝ) : ℝ :=
  getFrequency
    ((scaleNotesOf params.key params.scale).getD
      ((chordDegreeAt params.scale params.tempo time + 4) %
        (scaleNotesOf params.key params.scale).length) "") 3

/-- The per-sample layer sum `bass + harmony + melody` of the render loop;
`r1` is the `Math.random()` draw consumed by the bass's noise component. -/
noncomputable def rawMix (params : MusicParams) (sampleRate i : ℕ) (r1 : ℝ) : ℝ :=
  generateBass (bassTypeOf (getMoodVibe params.rhythm).bassType)
      (rootFreqAt params (timeAt sampleRate i)) (timeAt sampleRate i)
      (beatInMeasureAt params.tempo (timeAt sampleRate i))
      (getMoodVibe params.rhythm).rhythmComplexity r1 +
    generateHarmony (harmonyTypeOf (getMoodVibe params.rhythm).harmony)
      (rootFreqAt params (timeAt sampleRate i)) (thirdFreqAt params (timeAt sampleRate i))
      (fifthFreqAt params (timeAt sampleRate i)) (timeAt sampleRate i) params.tempo +
    generateMelody (melodyTypeOf (getMoodVibe params.rhythm).melodyStyle)
      (scaleNotesOf params.key params.scale) (timeAt sampleRate i) params.tempo
      (currentMeasureAt params.tempo (timeAt sampleRate i)).toNat

/-- The layer sum after the profile's effects chain; `r2` is the
`Math.random()` draw consumed by a `fizz` effect. -/
noncomputable def effectedSample (params : MusicParams) (sampleRate i : ℕ) (r1 r2 : ℝ) : ℝ :=
  applyMoodEffects (rawMix params sampleRate i r1) (getMoodVibe params.rhythm).effects
    (timeAt sampleRate i) (rootFreqAt params (timeAt sampleRate i)) params.tempo r2

/-- The global envelope: linear fade-in over the first 2 seconds, linear
fade-out over the last 3 of the 30-second duration, else 1. -/
noncomputable def envelopeAt (time : ℝ) : ℝ :=
  if time < 2 then time / 2
  else if time > 30 - 3 then (30 - time) / 3
  else 1

/-- The sample value just before the final soft clip: effects output times the
envelope, then times 0.7 when the scale is minor. -/
noncomputable def preClipSample (params : MusicParams) (sampleRate i : ℕ) (r1 r2 : ℝ) : ℝ :=
  if params.scale = Mode.minor then
    effectedSample params sampleRate i r1 r2 * envelopeAt (timeAt sampleRate i) * 0.7
  else
    effectedSample params sampleRate i r1 r2 * envelopeAt (timeAt sampleRate i)

/-- The left-channel sample written at index `i`:
`Math.tanh(sample * 0.8) * 0.9`. -/
noncomputable def renderSample (params : MusicParams) (sampleRate i : ℕ) (r1 r2 : ℝ) : ℝ :=
  Real.tanh (preClipSample params sampleRate i r1 r2 * 0.8) * 0.9

/-- The source's `generateAudioFromMood`: the two channels of the rendered
30-second buffer (`numSamples = sampleRate * 30`); `rand1 i` and `rand2 i` are
the `Math.random()` draws available to sample `i` (bass noise and `fizz`
respectively), and the right channel is the left times 0.95. -/
noncomputable def generateAudioFromMood (params : MusicParams) (sampleRate : ℕ)
    (rand1 rand2 : ℕ → ℝ) : List ℝ × List ℝ :=
  ((List.range (sampleRate * 30)).map fun i =>
      renderSample params sampleRate i (rand1 i) (rand2 i),
   (List.range (sampleRate * 30)).map fun i =>
      renderSample params sampleRate i (rand1 i) (rand2 i) * 0.95)

/-- Number of non-overlapping occurrences of a nonempty pattern in a
character list, scanning left to right — the match count of the server's
`lowerText.match(new RegExp(keyword, 'g'))` for the plain-word keywords it
uses.  The first argument is fuel (instantiated with the text length by
`countOcc`), which keeps the recursion structural. -/
def countOccAux (pat : List Char) : ℕ → List Char → ℕ
  | 0, _ => 0
  | _, [] => 0
  | fuel + 1, c :: rest =>
    if pat ≠ [] ∧ pat.isPrefixOf (c :: rest) then
      1 + countOccAux pat fuel ((c :: rest).drop pat.length)
    else
      countOccAux pat fuel rest

/-- Non-overlapping occurrence count of `pat` in `s`. -/
def countOcc (pat s : List Char) : ℕ := countOccAux pat s.length s

/-- `text.toLowerCase()` as a character list. -/
def lowerChars (s : String) : List Char := s.data.map Char.toLower

/-- Whitespace for the purposes of the `\s+` split. -/
def isWsChar (c : Char) : Bool :=
  c = ' ' || c = '\t' || c = '\n' || c = '\r' || c = '\x0b' || c = '\x0c'

/-- Number of maximal whitespace runs in a character list (the flag records
whether the previous character was whitespace). -/
def wsRuns : Bool → List Char → ℕ
  | _, [] => 0
  | inWs, c :: rest =>
    if isWsChar c then (if inWs then 0 else 1) + wsRuns true rest
    else wsRuns false rest

/-- `text.split(/\s+/).length`: one more than the number of maximal
whitespace runs. -/
def totalWords (text : String) : ℕ := wsRuns false text.data + 1

/-- The server's `moodKeywords` table, in source (insertion) order. -/
def moodKeywords : List (String × List String) :=
  [("happy", ["happy", "joy", "excited", "cheerful", "glad", "pleased", "delighted",
      "elated", "upbeat", "positive"]),
   ("sad", ["sad", "depressed", "down", "melancholy", "blue", "unhappy", "sorrowful",
      "gloomy", "dejected"]),
   ("energetic", ["energetic", "pumped", "hyper", "active", "dynamic", "vigorous",
      "lively", "spirited"]),
   ("calm", ["calm", "peaceful", "relaxed", "serene", "tranquil", "quiet", "still",
      "composed"]),
   ("anxious", ["anxious", "worried", "nervous", "stressed", "tense", "uneasy",
      "concerned", "apprehensive"]),
   ("peaceful", ["peaceful", "zen", "meditation", "mindful", "harmony", "balance",
      "serenity"]),
   ("excited", ["thrilled", "ecstatic", "enthusiastic", "eager", "animated",
      "exuberant"]),
   ("melancholy", ["nostalgic", "wistful", "pensive", "reflective", "bittersweet"]),
   ("focused", ["focused", "concentrated", "determined", "motivated", "driven",
      "productive"]),
   ("romantic", ["love", "romantic", "affectionate", "tender", "passionate",
      "intimate"])]

/-- The canonical 10-element mood set (the keys of `moodKeywords`). -/
def canonicalMoods : List String :=
  ["happy", "sad", "energetic", "calm", "anxious", "peaceful", "excited",
   "melancholy", "focused", "romantic"]

/-- A mood's score: total keyword match count over the lowercased text. -/
def moodScore (kws : List String) (t : List Char) : ℕ :=
  (kws.map fun k => countOcc k.data t).sum

/-- The `scores` table as the entry list `Object.entries(scores)`. -/
def scoreEntries (text : String) : List (String × ℕ) :=
  moodKeywords.map fun p => (p.1, moodScore p.2 (lowerChars text))

/-- JavaScript `entries.reduce((a, b) => scores[a[0]] > scores[b[0]] ? a : b)`:
the first entry of maximal score (later entries win ties).  The empty case is
unreachable (the table has ten entries). -/
def jsReduceMax : List (String × ℕ) → String × ℕ
  | [] => ("", 0)
  | a :: l => l.foldl (fun x y => if x.2 > y.2 then x else y) a

/-- The winning `(mood, score)` entry for a text. -/
def topMoodOf (text : String) : String × ℕ := jsReduceMax (scoreEntries text)

/-- The server's confidence computation, in exact rational arithmetic:
`Math.round(Math.min(95, Math.max(30, (topScore / totalWords) * 100 + 30)))`. -/
def analyzeConfidence (text : String) : ℤ :=
  round (min (95 : ℚ) (max 30 (((topMoodOf text).2 : ℚ) / (totalWords text : ℚ) * 100 + 30)))

/-- The detected mood: `topMood[1] > 0 ? topMood[0] : 'calm'`. -/
def analyzeMoodName (text : String) : String :=
  if (topMoodOf text).2 > 0 then (topMoodOf text).1 else "calm"

/-- The server's `analyzeMoodFromText`: the detected mood (`'calm'` when the
top score is zero) and the rounded confidence. -/
def analyzeMoodFromText (text : String) : String × ℤ :=
  (analyzeMoodName text, analyzeConfidence text)

/-- The `/api/generate-music` route's stored track duration
`Math.floor(Math.random() * 30) + 30`, with the `Math.random()` draw (a value
in `[0,1)`, a binary rational in JavaScript) as the explicit parameter. -/
def trackDuration (r : ℚ) : ℤ := ⌊r * 30⌋ + 30

end MoodTunes

namespace MoodTunes

/-- C2: for every note of the chromatic sequence and every octave, the code's
expression `440 * 2^((noteIndex - 9 + (octave - 4) * 12) / 12)` equals the
spec's formula `440 * 2^((noteIndex - 9)/12 + (octave - 4))`, and
`getFrequency "A" 4 = 440` exactly. -/
theorem getFrequency_spec_formula :
    (∀ (i : Fin 12) (octave : ℤ),
      getFrequency (noteMap.getD i.val "") octave =
        440 * (2 : ℝ) ^ ((((i.val : ℕ) : ℝ) - 9) / 12 + (((octave : ℤ) : ℝ) - 4))) ∧
    getFrequency "A" 4 = 440 := by
  constructor
  · intro i octave
    have hidx : jsIndexOf noteMap (noteMap.getD i.val "") = (i.val : ℤ) := by
      fin_cases i <;> rfl
    unfold getFrequency
    rw [hidx]
    congr 1
    push_cast
    ring_nf
  · have hA : jsIndexOf noteMap "A" = 9 := by rfl
    unfold getFrequency
    rw [hA]
    norm_num

/-- C3: the code does not validate the note name: for the invalid note `"H"`
the index computed is `-1` and `getFrequency` silently returns the ordinary
positive frequency `440 * 2^((-1 - 9 + (octave - 4) * 12)/12)` instead of
failing with a configuration error. -/
theorem getFrequency_invalid_note_silent :
    jsIndexOf noteMap "H" = -1 ∧
    getFrequency "H" 4 = 440 * (2 : ℝ) ^ ((-10 : ℝ) / 12) ∧
    0 < getFrequency "H" 4 := by
  have hH : jsIndexOf noteMap "H" = -1 := by rfl
  refine ⟨hH, ?_, ?_⟩
  · unfold getFrequency
    rw [hH]
    norm_num
  · unfold getFrequency
    positivity

/-- C4: the chord progression lookup returns `[0,3,4,0]` for major and
`[0,2,5,0]` for minor; it is a function of the mode alone (it takes no key or
tempo argument), and both results have exactly 4 entries. -/
theorem getChordProgression_table :
    getChordProgression Mode.major = [0, 3, 4, 0] ∧
    getChordProgression Mode.minor = [0, 2, 5, 0] ∧
    ∀ m : Mode, (getChordProgression m).length = 4 := by
  refine ⟨rfl, rfl, ?_⟩
  intro m
  cases m <;> rfl

/-- C5: for every valid root note (each of the 12 chromatic names) and each
mode, the scale built by `generateAudioFromMood` has exactly 7 pairwise
distinct note names. -/
theorem scaleNotesOf_length_nodup :
    ∀ (i : Fin 12) (m : Mode),
      (scaleNotesOf (noteMap.getD i.val "") m).length = 7 ∧
      (scaleNotesOf (noteMap.getD i.val "") m).Nodup := by
  decide

/-- C6: the vibe-profile lookup reproduces exactly the ten-entry table, and
every rhythm string outside the ten identifiers yields the `flowing`
profile. -/
theorem getMoodVibe_table :
    getMoodVibe "upbeat" = ⟨"bouncy", "dancing", "bright", ["sparkle", "bounce"], 4⟩ ∧
    getMoodVibe "slow" = ⟨"melancholic", "sorrowful", "emotional", ["reverb", "tears"], 1⟩ ∧
    getMoodVibe "driving" = ⟨"pounding", "soaring", "powerful", ["distortion", "pulse"], 8⟩ ∧
    getMoodVibe "flowing" = ⟨"gentle", "floating", "peaceful", ["wave", "breath"], 2⟩ ∧
    getMoodVibe "irregular" = ⟨"restless", "uncertain", "unsettled", ["flutter", "hesitate"], 5⟩ ∧
    getMoodVibe "gentle" = ⟨"soft", "lullaby", "warm", ["whisper", "glow"], 1⟩ ∧
    getMoodVibe "energetic" = ⟨"jumping", "celebrating", "vibrant", ["burst", "fizz"], 6⟩ ∧
    getMoodVibe "contemplative" = ⟨"hollow", "longing", "nostalgic", ["drift", "memory"], 1⟩ ∧
    getMoodVibe "steady" = ⟨"solid", "precise", "clear", ["focus", "sharp"], 2⟩ ∧
    getMoodVibe "romantic" = ⟨"warm", "tender", "intimate", ["caress", "velvet"], 3⟩ ∧
    ∀ r : String, r ∉ rhythmIds →
      getMoodVibe r = ⟨"gentle", "floating", "peaceful", ["wave", "breath"], 2⟩ := by
  refine ⟨rfl, rfl, rfl, rfl, rfl, rfl, rfl, rfl, rfl, rfl, ?_⟩
  intro r hr
  simp only [rhythmIds, List.mem_cons, List.not_mem_nil, or_false] at hr
  push_neg at hr
  obtain ⟨h1, h2, h3, h4, h5, h6, h7, h8, h9, h10⟩ := hr
  simp [getMoodVibe, h1, h2, h3, h4, h5, h6, h7, h8, h9, h10]

/-- Witness for C6: the unknown rhythm identifier `"jazzy"` resolves to the
`flowing` profile. -/
theorem getMoodVibe_table_witness :
    "jazzy" ∉ rhythmIds ∧
    getMoodVibe "jazzy" = ⟨"gentle", "floating", "peaceful", ["wave", "breath"], 2⟩ :=
  ⟨by decide, getMoodVibe_table.2.2.2.2.2.2.2.2.2.2 "jazzy" (by decide)⟩

/-- Counterexample for C7: the `hollow` bass style (the `contemplative`
rhythm's bass) hands `generateWaveform` the frequency
`rootFreq * 0.5 * 0.7`, which at `rootFreq = 100` is `35`, not
`100 * 0.5 = 50`. -/
theorem bass_half_root_counterexample :
    bassTypeOf (getMoodVibe "contemplative").bassType = BassType.hollow ∧
    bassOscFreq BassType.hollow 100 0 = 35 ∧
    ¬ bassOscFreq BassType.hollow 100 0 = 100 * 0.5 := by
  refine ⟨by decide, ?_, ?_⟩ <;> unfold bassOscFreq <;> norm_num

/-- C7 (as amended): the seven styles `bouncy`, `pounding`, `gentle`, `soft`,
`jumping`, `solid` and `warm` (and the default branch) feed the waveform
primitive exactly half the chord root frequency; `melancholic` and `restless`
apply a time-varying multiplicative modulation to that half frequency, and
`hollow` uses `0.7` times the half frequency. -/
theorem bassOscFreq_amended (rootFreq time : ℝ) :
    bassOscFreq BassType.bouncy rootFreq time = rootFreq * 0.5 ∧
    bassOscFreq BassType.pounding rootFreq time = rootFreq * 0.5 ∧
    bassOscFreq BassType.gentle rootFreq time = rootFreq * 0.5 ∧
    bassOscFreq BassType.soft rootFreq time = rootFreq * 0.5 ∧
    bassOscFreq BassType.jumping rootFreq time = rootFreq * 0.5 ∧
    bassOscFreq BassType.solid rootFreq time = rootFreq * 0.5 ∧
    bassOscFreq BassType.warm rootFreq time = rootFreq * 0.5 ∧
    bassOscFreq BassType.other rootFreq time = rootFreq * 0.5 ∧
    bassOscFreq BassType.melancholic rootFreq time =
      rootFreq * 0.5 * (1 + 0.1 * Real.sin (time * 0.3)) ∧
    bassOscFreq BassType.restless rootFreq time =
      rootFreq * 0.5 * (1 + 0.4 * Real.sin (time * 1.5)) ∧
    bassOscFreq BassType.hollow rootFreq time = rootFreq * 0.5 * 0.7 :=
  ⟨rfl, rfl, rfl, rfl, rfl, rfl, rfl, rfl, rfl, rfl, rfl⟩

/-- The hyperbolic tangent stays strictly inside `(-1, 1)`. -/
theorem abs_tanh_lt_one (y : ℝ) : |Real.tanh y| < 1 := by
  rw [Real.tanh_eq_sinh_div_cosh, abs_div, abs_of_pos (Real.cosh_pos y),
    div_lt_one (Real.cosh_pos y)]
  rcases abs_cases (Real.sinh y) with ⟨h, _⟩ | ⟨h, _⟩
  · rw [h]; exact Real.sinh_lt_cosh y
  · rw [h]
    have := Real.sinh_lt_cosh (-y)
    rw [Real.sinh_neg, Real.cosh_neg] at this
    exact this

/-- Every written left-channel sample has magnitude at most 0.9. -/
theorem renderSample_abs_le (params : MusicParams) (sampleRate i : ℕ) (r1 r2 : ℝ) :
    |renderSample params sampleRate i r1 r2| ≤ 0.9 := by
  unfold renderSample
  rw [abs_mul, abs_of_pos (by norm_num : (0:ℝ) < 0.9)]
  have h := (abs_tanh_lt_one (preClipSample params sampleRate i r1 r2 * 0.8)).le
  nlinarith

/-- C1: for every `MusicParams` (any of the 10 rhythm identifiers, a valid
key, either scale, positive tempo), the render is a total function whose two
channels both have length exactly `sampleRate * 30`; every left sample has
magnitude at most 0.9 (hence lies in `[-1, 1]`), every right sample lies in
`[-1, 1]`, and the right channel is the left channel scaled by 0.95. -/
theorem generateAudio_length_bounds (params : MusicParams) (sampleRate : ℕ)
    (rand1 rand2 : ℕ → ℝ) (hr : params.rhythm ∈ rhythmIds)
    (hk : params.key ∈ noteMap) (ht : 0 < params.tempo) :
    (generateAudioFromMood params sampleRate rand1 rand2).1.length = sampleRate * 30 ∧
    (generateAudioFromMood params sampleRate rand1 rand2).2.length = sampleRate * 30 ∧
    (∀ x ∈ (generateAudioFromMood params sampleRate rand1 rand2).1,
      |x| ≤ 0.9 ∧ -1 ≤ x ∧ x ≤ 1) ∧
    (∀ x ∈ (generateAudioFromMood params sampleRate rand1 rand2).2, -1 ≤ x ∧ x ≤ 1) ∧
    (generateAudioFromMood params sampleRate rand1 rand2).2 =
      (generateAudioFromMood params sampleRate rand1 rand2).1.map (fun s => s * 0.95) := by
  unfold generateAudioFromMood
  refine ⟨by simp, by simp, ?_, ?_, by rw [List.map_map]; rfl⟩
  · intro x hx
    simp only [List.mem_map, List.mem_range] at hx
    obtain ⟨i, _, rfl⟩ := hx
    have h := renderSample_abs_le params sampleRate i (rand1 i) (rand2 i)
    have h2 := abs_le.mp (h.trans (by norm_num : (0.9:ℝ) ≤ 1))
    exact ⟨h, h2.1, h2.2⟩
  · intro x hx
    simp only [List.mem_map, List.mem_range] at hx
    obtain ⟨i, _, rfl⟩ := hx
    have h := abs_le.mp (renderSample_abs_le params sampleRate i (rand1 i) (rand2 i))
    constructor <;> nlinarith [h.1, h.2]

/-- Witness for C1 at the `happy` parameter set with a 2 Hz sample rate and
all random draws 0. -/
theorem generateAudio_length_bounds_witness :
    (⟨120, "C", Mode.major, "upbeat"⟩ : MusicParams).rhythm ∈ rhythmIds ∧
    (⟨120, "C", Mode.major, "upbeat"⟩ : MusicParams).key ∈ noteMap ∧
    0 < (⟨120, "C", Mode.major, "upbeat"⟩ : MusicParams).tempo ∧
    ((generateAudioFromMood ⟨120, "C", Mode.major, "upbeat"⟩ 2 (fun _ => 0)
        (fun _ => 0)).1.length = 2 * 30 ∧
      (generateAudioFromMood ⟨120, "C", Mode.major, "upbeat"⟩ 2 (fun _ => 0)
        (fun _ => 0)).2.length = 2 * 30 ∧
      (∀ x ∈ (generateAudioFromMood ⟨120, "C", Mode.major, "upbeat"⟩ 2 (fun _ => 0)
        (fun _ => 0)).1, |x| ≤ 0.9 ∧ -1 ≤ x ∧ x ≤ 1) ∧
      (∀ x ∈ (generateAudioFromMood ⟨120, "C", Mode.major, "upbeat"⟩ 2 (fun _ => 0)
        (fun _ => 0)).2, -1 ≤ x ∧ x ≤ 1) ∧
      (generateAudioFromMood ⟨120, "C", Mode.major, "upbeat"⟩ 2 (fun _ => 0)
        (fun _ => 0)).2 =
        (generateAudioFromMood ⟨120, "C", Mode.major, "upbeat"⟩ 2 (fun _ => 0)
          (fun _ => 0)).1.map (fun s => s * 0.95)) :=
  ⟨by decide, by decide, by decide,
    generateAudio_length_bounds _ 2 _ _ (by decide) (by decide) (by decide)⟩

/-- Only the `pounding` branch of `generateBass` reads the random draw. -/
theorem generateBass_rand_irrel (bt : BassType) (hbt : bt ≠ BassType.pounding)
    (f t b : ℝ) (c : ℕ) (r r' : ℝ) :
    generateBass bt f t b c r = generateBass bt f t b c r' := by
  cases bt <;> first | rfl | exact absurd rfl hbt

/-- Only the `fizz` branch of the effects switch reads the random draw. -/
theorem applyEffect_rand_irrel (e : EffectKind) (he : e ≠ EffectKind.fizz)
    (orig p t f : ℝ) (tempo : ℕ) (r r' : ℝ) :
    applyEffect e orig p t f tempo r = applyEffect e orig p t f tempo r' := by
  cases e <;> first | rfl | exact absurd rfl he

/-- A fizz-free effects chain is independent of the random draw, whatever the
running value it starts from. -/
theorem foldl_effects_rand_irrel (orig t f : ℝ) (tempo : ℕ) (r r' : ℝ) :
    ∀ es : List String, (∀ e ∈ es, effectKindOf e ≠ EffectKind.fizz) → ∀ p : ℝ,
      es.foldl (fun q e => applyEffect (effectKindOf e) orig q t f tempo r) p =
      es.foldl (fun q e => applyEffect (effectKindOf e) orig q t f tempo r') p := by
  intro es
  induction es with
  | nil => intro _ _; rfl
  | cons e es ih =>
    intro h p
    simp only [List.foldl_cons]
    rw [applyEffect_rand_irrel (effectKindOf e) (h e (List.mem_cons_self e es)) orig p t f tempo r r']
    exact ih (fun x hx => h x (List.mem_cons_of_mem e hx)) _

/-- Every rhythm other than `driving` and `energetic` resolves to a profile
with a non-`pounding` bass and a fizz-free effects list. -/
theorem vibe_no_noise (rhythm : String) (h1 : rhythm ≠ "driving")
    (h2 : rhythm ≠ "energetic") :
    bassTypeOf (getMoodVibe rhythm).bassType ≠ BassType.pounding ∧
    ∀ e ∈ (getMoodVibe rhythm).effects, effectKindOf e ≠ EffectKind.fizz := by
  unfold getMoodVibe
  split_ifs with ha hb hc hd hee hf hg hh hi hj <;>
    first | (exact absurd hc h1) | (exact absurd hg h2) | decide

/-- Away from the two noise-using profiles, a rendered sample does not depend
on the random draws. -/
theorem renderSample_rand_irrel (params : MusicParams) (sampleRate i : ℕ)
    (h1 : params.rhythm ≠ "driving") (h2 : params.rhythm ≠ "energetic")
    (r1 r2 r1' r2' : ℝ) :
    renderSample params sampleRate i r1 r2 = renderSample params sampleRate i r1' r2' := by
  obtain ⟨hb, hf⟩ := vibe_no_noise params.rhythm h1 h2
  have hmix : rawMix params sampleRate i r1 = rawMix params sampleRate i r1' := by
    unfold rawMix
    rw [generateBass_rand_irrel _ hb _ _ _ _ r1 r1']
  have heff : effectedSample params sampleRate i r1 r2 =
      effectedSample params sampleRate i r1' r2' := by
    unfold effectedSample applyMoodEffects
    rw [hmix]
    exact foldl_effects_rand_irrel _ _ _ _ r2 r2' _ hf _
  unfold renderSample preClipSample
  rw [heff]

/-- C8: for every `MusicParams` whose rhythm is neither `driving` (whose
`pounding` bass blends the noise primitive) nor `energetic` (whose effects
include `fizz`), two renders with identical parameters are exactly
numerically identical, whatever the random draws. -/
theorem generateAudio_deterministic (params : MusicParams) (sampleRate : ℕ)
    (rand1 rand2 rand1' rand2' : ℕ → ℝ)
    (h1 : params.rhythm ≠ "driving") (h2 : params.rhythm ≠ "energetic") :
    generateAudioFromMood params sampleRate rand1 rand2 =
      generateAudioFromMood params sampleRate rand1' rand2' := by
  have key : ∀ i : ℕ, renderSample params sampleRate i (rand1 i) (rand2 i) =
      renderSample params sampleRate i (rand1' i) (rand2' i) := fun i =>
    renderSample_rand_irrel params sampleRate i h1 h2 _ _ _ _
  unfold generateAudioFromMood
  refine Prod.ext ?_ ?_
  · exact List.map_congr_left fun i _ => key i
  · exact List.map_congr_left fun i _ => by rw [key i]

/-- Witness for C8: the `flowing` profile renders identically under two
different random streams. -/
theorem generateAudio_deterministic_witness :
    (⟨70, "F", Mode.major, "flowing"⟩ : MusicParams).rhythm ≠ "driving" ∧
    (⟨70, "F", Mode.major, "flowing"⟩ : MusicParams).rhythm ≠ "energetic" ∧
    generateAudioFromMood ⟨70, "F", Mode.major, "flowing"⟩ 1 (fun _ => 0) (fun _ => 0) =
      generateAudioFromMood ⟨70, "F", Mode.major, "flowing"⟩ 1 (fun _ => 1) (fun _ => 1) :=
  ⟨by decide, by decide,
    generateAudio_deterministic _ 1 _ _ _ _ (by decide) (by decide)⟩

/-- The JavaScript `reduce` maximum-selection step always returns one of the
scanned entries. -/
theorem foldMax_mem (l : List (String × ℕ)) :
    ∀ a, l.foldl (fun x y => if x.2 > y.2 then x else y) a ∈ a :: l := by
  induction l with
  | nil => intro a; exact List.mem_singleton_self a
  | cons b l ih =>
    intro a
    simp only [List.foldl_cons]
    by_cases hc : a.2 > b.2
    · rw [if_pos hc]
      rcases List.mem_cons.mp (ih a) with h | h
      · rw [h]; exact List.mem_cons_self _ _
      · exact List.mem_cons_of_mem _ (List.mem_cons_of_mem _ h)
    · rw [if_neg hc]
      rcases List.mem_cons.mp (ih b) with h | h
      · rw [h]; exact List.mem_cons_of_mem _ (List.mem_cons_self _ _)
      · exact List.mem_cons_of_mem _ (List.mem_cons_of_mem _ h)

/-- The score-table entry list is never empty and its keys are the canonical
moods. -/
theorem scoreEntries_map_fst (text : String) :
    (scoreEntries text).map Prod.fst = canonicalMoods := rfl

/-- The winning entry is one of the table's entries. -/
theorem topMoodOf_mem (text : String) : topMoodOf text ∈ scoreEntries text := by
  unfold topMoodOf jsReduceMax
  cases hse : scoreEntries text with
  | nil => simp [scoreEntries, moodKeywords] at hse
  | cons a l => exact foldMax_mem l a

/-- When every entry scores zero, the winning entry scores zero. -/
theorem topMoodOf_snd_zero (text : String)
    (h : ∀ x ∈ scoreEntries text, x.2 = 0) : (topMoodOf text).2 = 0 :=
  h _ (topMoodOf_mem text)

/-- The mood component of the analysis, by definition. -/
theorem analyzeMood_fst (text : String) :
    (analyzeMoodFromText text).1 = analyzeMoodName text := by
  simp only [analyzeMoodFromText]

/-- The confidence component of the analysis, by definition. -/
theorem analyzeMood_snd (text : String) :
    (analyzeMoodFromText text).2 = analyzeConfidence text := by
  simp only [analyzeMoodFromText]

/-- The rounded confidence always lies in `[30, 95]`. -/
theorem analyzeConfidence_bounds (text : String) :
    30 ≤ analyzeConfidence text ∧ analyzeConfidence text ≤ 95 := by
  unfold analyzeConfidence
  set q := ((topMoodOf text).2 : ℚ) / (totalWords text : ℚ) * 100 + 30 with hq
  have h30 : (30 : ℚ) ≤ min 95 (max 30 q) := le_min (by norm_num) (le_max_left _ _)
  have h95 : min (95 : ℚ) (max 30 q) ≤ 95 := min_le_left _ _
  constructor
  · rw [round_eq]
    exact Int.le_floor.mpr (by push_cast; linarith)
  · rw [round_eq]
    have hlt : min (95 : ℚ) (max 30 q) + 1 / 2 < 96 := by linarith
    exact Int.lt_add_one_iff.mp (Int.floor_lt.mpr (by push_cast; linarith))

/-- C9: for every input text, the server-side mood analysis returns a mood in
the 10-element canonical set — `calm` whenever no keyword of any mood occurs
in the lowercased text — and an integer confidence in `[30, 95]`. -/
theorem analyzeMood_canonical (text : String) :
    (analyzeMoodFromText text).1 ∈ canonicalMoods ∧
    30 ≤ (analyzeMoodFromText text).2 ∧
    (analyzeMoodFromText text).2 ≤ 95 ∧
    ((∀ p ∈ moodKeywords, ∀ kw ∈ p.2, countOcc kw.data (lowerChars text) = 0) →
      (analyzeMoodFromText text).1 = "calm") := by
  obtain ⟨hc1, hc2⟩ := analyzeConfidence_bounds text
  refine ⟨?_, by rw [analyzeMood_snd]; exact hc1, by rw [analyzeMood_snd]; exact hc2, ?_⟩
  · rw [analyzeMood_fst]
    unfold analyzeMoodName
    by_cases h : (topMoodOf text).2 > 0
    · rw [if_pos h]
      have := List.mem_map_of_mem Prod.fst (topMoodOf_mem text)
      rwa [scoreEntries_map_fst] at this
    · rw [if_neg h]
      decide
  · intro h
    have hz : ∀ x ∈ scoreEntries text, x.2 = 0 := by
      intro x hx
      simp only [scoreEntries, List.mem_map] at hx
      obtain ⟨p, hp, rfl⟩ := hx
      simp only [moodScore]
      refine List.sum_eq_zero ?_
      intro n hn
      simp only [List.mem_map] at hn
      obtain ⟨kw, hkw, rfl⟩ := hn
      exact h p hp kw hkw
    rw [analyzeMood_fst]
    unfold analyzeMoodName
    rw [if_neg (by rw [topMoodOf_snd_zero text hz]; exact lt_irrefl 0)]

/-- Witness for C9: `"hello"` contains no mood keyword and is classified
`calm`. -/
theorem analyzeMood_canonical_witness :
    (∀ p ∈ moodKeywords, ∀ kw ∈ p.2, countOcc kw.data (lowerChars "hello") = 0) ∧
    (analyzeMoodFromText "hello").1 = "calm" :=
  ⟨by decide, (analyzeMood_canonical "hello").2.2.2 (by decide)⟩

/-- C10: the stored track duration `Math.floor(random * 30) + 30` is an
integer in `[30, 60]` for every draw in `[0, 1)`; some draws give a duration
different from 30, while the buffer `generateAudioFromMood` renders always
holds exactly `sampleRate * 30` samples (30 seconds) per channel. -/
theorem trackDuration_range :
    (∀ r : ℚ, 0 ≤ r → r < 1 → 30 ≤ trackDuration r ∧ trackDuration r ≤ 60) ∧
    (∃ r : ℚ, 0 ≤ r ∧ r < 1 ∧ trackDuration r ≠ 30) ∧
    (∀ (params : MusicParams) (sampleRate : ℕ) (rand1 rand2 : ℕ → ℝ),
      (generateAudioFromMood params sampleRate rand1 rand2).1.length =
        sampleRate * 30) := by
  have h45 : trackDuration (1/2) = 45 := by
    unfold trackDuration
    rw [(by norm_num : (1/2 : ℚ) * 30 = ((15 : ℤ) : ℚ)), Int.floor_intCast]
    decide
  refine ⟨?_, ⟨1/2, by norm_num, by norm_num, by rw [h45]; decide⟩, ?_⟩
  · intro r h0 h1
    unfold trackDuration
    have hlo : (0 : ℤ) ≤ ⌊r * 30⌋ := Int.le_floor.mpr (by push_cast; nlinarith)
    have hhi : ⌊r * 30⌋ < 30 := Int.floor_lt.mpr (by push_cast; nlinarith)
    omega
  · intro params sampleRate rand1 rand2
    unfold generateAudioFromMood
    simp

/-- Witness for C10 at the draw `1/2`, whose duration is 45 seconds. -/
theorem trackDuration_range_witness :
    (0 : ℚ) ≤ 1/2 ∧ (1/2 : ℚ) < 1 ∧
    (30 ≤ trackDuration (1/2) ∧ trackDuration (1/2) ≤ 60) :=
  ⟨by norm_num, by norm_num, trackDuration_range.1 (1/2) (by norm_num) (by norm_num)⟩

end MoodTunes
